import Mathlib

/-!
Verification of the core logic of the Hybrid Tag firmware (`src/main.c`):
a dual-identity BLE tag that alternates between Apple FindMy and Google
FMDN advertisement formats.  Bytes are modelled as `Nat` values below 256
(the C code uses `uint8_t`), buffers as `List Nat`, and the stateful
provisioning GATT handlers as explicit state-passing functions.
-/

namespace HybridTag

/-- ATT error code `BT_ATT_ERR_INVALID_ATTRIBUTE_LEN` (0x0D). -/
def BT_ATT_ERR_INVALID_ATTRIBUTE_LEN : Nat := 0x0D

/-- ATT error code `BT_ATT_ERR_UNLIKELY` (0x0E). -/
def BT_ATT_ERR_UNLIKELY : Nat := 0x0E

/-- Constant `APPLE_KEY_SIZE` from `keys.h` (28-byte P-224-derived key). -/
def APPLE_KEY_SIZE : Nat := 28

/-- Constant `GOOGLE_KEY_SIZE` from `keys.h` (20-byte EC key). -/
def GOOGLE_KEY_SIZE : Nat := 20

/-- Result of a GATT write handler: either the accepted length
(the C handlers `return len`), or `BT_GATT_ERR(att)` for an ATT error. -/
inductive WriteResult where
  | ok : Nat → WriteResult
  | err : Nat → WriteResult
deriving DecidableEq, Repr

/-- The protocol enumeration `protocol_t` from `main.c`. -/
inductive protocol_t where
  | PROTOCOL_APPLE_FINDMY
  | PROTOCOL_GOOGLE_FMDN
deriving DecidableEq, Repr

/-- Function `prepare_apple_findmy_adv`, as a pure function of the 28-byte runtime
Apple key: payload bytes 0..4 are the fixed header `4C 00 12 19 00`,
bytes 5..26 copy `key[6..27]` (22 bytes), byte 27 is `(key[0] >> 6) & 0x03`
and byte 28 is the hint byte `0x00`. -/
def prepare_apple_findmy_adv (key : List Nat) : List Nat :=
  0x4C :: 0x00 :: 0x12 :: 0x19 :: 0x00 ::
    ((key.drop 6).take 22 ++ [((key.getD 0 0) >>> 6) &&& 0x03, 0x00])

/-- Function `prepare_google_fmdn_adv`, as a pure function of the 20-byte runtime
Google key: bytes 0..2 are `2C FE 00`, bytes 3..22 copy `key[0..19]`. -/
def prepare_google_fmdn_adv (key : List Nat) : List Nat :=
  0x2C :: 0xFE :: 0x00 :: key.take GOOGLE_KEY_SIZE

/-- The address computed by `set_mac_address` in the Apple branch, listed
as `[addr[0], ..., addr[5]]`: key bytes 0..5 reversed, with the two high
bits of `addr[5]` forced to `11` (static random address). -/
def set_mac_address_apple (key : List Nat) : List Nat :=
  [key.getD 5 0, key.getD 4 0, key.getD 3 0, key.getD 2 0, key.getD 1 0,
   (key.getD 0 0) ||| 0xC0]

/-- The address computed by `set_mac_address` in the Google branch, listed
as `[addr[0], ..., addr[5]]`: key bytes 0..5 reversed, with the two high
bits of `addr[5]` cleared (non-resolvable private address). -/
def set_mac_address_google (key : List Nat) : List Nat :=
  [key.getD 5 0, key.getD 4 0, key.getD 3 0, key.getD 2 0, key.getD 1 0,
   (key.getD 0 0) &&& 0x3F]

/-- Function `set_mac_address`: when the device is not provisioned the function
returns early and the controller keeps its default address (`none`);
otherwise the protocol-appropriate derived address is installed. -/
def set_mac_address (keys_provisioned : Bool) (p : protocol_t)
    (apple_key google_key : List Nat) : Option (List Nat) :=
  if keys_provisioned = false then none
  else
    match p with
    | .PROTOCOL_APPLE_FINDMY => some (set_mac_address_apple apple_key)
    | .PROTOCOL_GOOGLE_FMDN => some (set_mac_address_google google_key)

/-- The provisioning auth code `{'a','b','c','d','e','f','g','h'}`. -/
def provision_auth_code : List Nat := [97, 98, 99, 100, 101, 102, 103, 104]

/-- The mutable state touched by the provisioning GATT handlers in
`main.c`: the session flags, the chunk-assembly buffer, the runtime keys,
the persisted settings entries, and the deferred-reboot work item
(modelled as the scheduled delay in seconds, `none` when not scheduled). -/
structure ProvState where
  provisioning_allowed : Bool
  provision_key_chunks : Nat
  provision_key_buf : List Nat
  runtime_apple_key : List Nat
  runtime_google_key : List Nat
  keys_loaded : Bool
  keys_provisioned : Bool
  stored_apple : Option (List Nat)
  stored_google : Option (List Nat)
  reboot_delay : Option Nat
deriving DecidableEq, Repr

/-- Function `reset_provisioning_state`. -/
def reset_provisioning_state (s : ProvState) : ProvState :=
  { s with provisioning_allowed := false, provision_key_chunks := 0 }

/-- Function `schedule_key_update_reboot`: reschedules the reboot work item with
`K_SECONDS(1)`. -/
def schedule_key_update_reboot (s : ProvState) : ProvState :=
  { s with reboot_delay := some 1 }

/-- Model of `memcpy(&dst[off], src, src.length)` on a byte buffer. -/
def memcpyAt (dst : List Nat) (off : Nat) (src : List Nat) : List Nat :=
  dst.take off ++ src ++ dst.drop (off + src.length)

/-- Handler `write_provision_auth`: a write of a length other than 8 is answered
with `BT_GATT_ERR(BT_ATT_ERR_INVALID_ATTRIBUTE_LEN)` and no state change;
an 8-byte write that does not match `provision_auth_code` resets the
session and returns the length; the matching token authenticates the
session and resets the chunk counter. -/
def write_provision_auth (s : ProvState) (buf : List Nat) :
    ProvState × WriteResult :=
  if buf.length ≠ provision_auth_code.length then
    (s, .err BT_ATT_ERR_INVALID_ATTRIBUTE_LEN)
  else if buf ≠ provision_auth_code then
    (reset_provisioning_state s, .ok buf.length)
  else
    ({ s with provisioning_allowed := true, provision_key_chunks := 0 },
     .ok buf.length)

/-- Handler `write_provision_key`: rejects the write (no state change) unless the
session is authenticated, the chunk is exactly 14 bytes, and fewer than
two chunks have been received.  An accepted chunk is copied into the
assembly buffer at offset `chunks * 14`; on the second chunk the buffer
is copied to the runtime Apple key and saved via
`settings_save_one("keys/apple", ...)` (its success is the `saveOk`
parameter) — on save failure the handler returns
`BT_GATT_ERR(BT_ATT_ERR_UNLIKELY)`, otherwise it marks the device
provisioned, resets the session and schedules the reboot. -/
def write_provision_key (saveOk : Bool) (s : ProvState) (buf : List Nat) :
    ProvState × WriteResult :=
  if s.provisioning_allowed = false ∨ buf.length ≠ 14 ∨
      2 ≤ s.provision_key_chunks then
    (s, .err BT_ATT_ERR_INVALID_ATTRIBUTE_LEN)
  else
    let buf2 := memcpyAt s.provision_key_buf (s.provision_key_chunks * 14) buf
    let s1 := { s with provision_key_buf := buf2,
                       provision_key_chunks := s.provision_key_chunks + 1 }
    if s1.provision_key_chunks = 2 then
      let s2 := { s1 with runtime_apple_key := buf2 }
      if saveOk = false then (s2, .err BT_ATT_ERR_UNLIKELY)
      else
        let s3 := { s2 with stored_apple := some buf2,
                            keys_loaded := true, keys_provisioned := true }
        (schedule_key_update_reboot (reset_provisioning_state s3),
         .ok buf.length)
    else (s1, .ok buf.length)

/-- An event on the provisioning GATT service: a write to the auth
characteristic or to the key characteristic (the `Bool` is whether the
`settings_save_one` call would succeed at that point). -/
inductive ProvEvent where
  | auth : List Nat → ProvEvent
  | key : Bool → List Nat → ProvEvent
deriving DecidableEq, Repr

/-- State transition of one provisioning write. -/
def prov_step (s : ProvState) (e : ProvEvent) : ProvState :=
  match e with
  | .auth b => (write_provision_auth s b).1
  | .key ok b => (write_provision_key ok s b).1

/-- Run a sequence of provisioning writes. -/
def prov_run (s : ProvState) : List ProvEvent → ProvState
  | [] => s
  | e :: es => prov_run (prov_step s e) es

/-- The key-related state produced by boot-time key loading. -/
structure KeysState where
  runtime_apple_key : List Nat
  runtime_google_key : List Nat
  keys_loaded : Bool
  keys_provisioned : Bool
deriving DecidableEq, Repr

/-- The `"apple"` branch of `keys_settings_set` during `settings_load`:
a stored value of exactly `APPLE_KEY_SIZE` bytes is copied to the runtime
key and marks `keys_loaded` and `keys_provisioned`; any other length is
rejected (`-EINVAL`) with no state change. -/
def keys_settings_load_apple (s : KeysState) (v : List Nat) : KeysState :=
  if v.length = APPLE_KEY_SIZE then
    { s with runtime_apple_key := v, keys_loaded := true,
             keys_provisioned := true }
  else s

/-- The `"google"` branch of `keys_settings_set` during `settings_load`:
a stored value of exactly `GOOGLE_KEY_SIZE` bytes is copied to the runtime
key and marks `keys_provisioned`; any other length is rejected with no
state change. -/
def keys_settings_load_google (s : KeysState) (v : List Nat) : KeysState :=
  if v.length = GOOGLE_KEY_SIZE then
    { s with runtime_google_key := v, keys_provisioned := true }
  else s

/-- Function `load_keys`, parameterised by the compiled default keys (from
`keys.h`) and the settings-partition contents: `keys_provisioned` is
cleared, `settings_load` replays the stored entries, and if no stored
Apple key set `keys_loaded` then both runtime keys fall back to the
compiled defaults. -/
def load_keys (default_apple default_google : List Nat)
    (stored_apple stored_google : Option (List Nat)) : KeysState :=
  let s0 : KeysState :=
    { runtime_apple_key := List.replicate APPLE_KEY_SIZE 0,
      runtime_google_key := List.replicate GOOGLE_KEY_SIZE 0,
      keys_loaded := false, keys_provisioned := false }
  let s1 := match stored_apple with
    | some v => keys_settings_load_apple s0 v
    | none => s0
  let s2 := match stored_google with
    | some v => keys_settings_load_google s1 v
    | none => s1
  if s2.keys_loaded = false then
    { s2 with runtime_apple_key := default_apple,
              runtime_google_key := default_google, keys_loaded := true }
  else s2

/-- AD type `BT_DATA_FLAGS`. -/
def BT_DATA_FLAGS : Nat := 0x01

/-- AD type `BT_DATA_NAME_COMPLETE`. -/
def BT_DATA_NAME_COMPLETE : Nat := 0x09

/-- AD type `BT_DATA_SVC_DATA16`. -/
def BT_DATA_SVC_DATA16 : Nat := 0x16

/-- AD type `BT_DATA_MANUFACTURER_DATA`. -/
def BT_DATA_MANUFACTURER_DATA : Nat := 0xFF

/-- Flags value `BT_LE_AD_GENERAL | BT_LE_AD_NO_BREDR` = 0x02 | 0x04. -/
def AD_FLAGS_VALUE : Nat := 0x06

/-- The bytes of `device_name` = "HYBRID-TAG". -/
def device_name : List Nat := [72, 89, 66, 82, 73, 68, 45, 84, 65, 71]

/-- The advertising data selected by `start_advertising`, as the list of
`bt_data` structures (AD type, payload bytes): the provisioning
advertisement when the device is unprovisioned, otherwise the
protocol-appropriate frame built from the runtime keys. -/
def start_advertising_data (keys_provisioned : Bool) (p : protocol_t)
    (apple_key google_key : List Nat) : List (Nat × List Nat) :=
  if keys_provisioned = false then
    [(BT_DATA_FLAGS, [AD_FLAGS_VALUE]), (BT_DATA_NAME_COMPLETE, device_name)]
  else
    match p with
    | .PROTOCOL_APPLE_FINDMY =>
        [(BT_DATA_MANUFACTURER_DATA, prepare_apple_findmy_adv apple_key)]
    | .PROTOCOL_GOOGLE_FMDN =>
        [(BT_DATA_FLAGS, [AD_FLAGS_VALUE]),
         (BT_DATA_SVC_DATA16, prepare_google_fmdn_adv google_key)]

/-- The state flip performed by `protocol_switcher`. -/
def switch_protocol (p : protocol_t) : protocol_t :=
  match p with
  | .PROTOCOL_APPLE_FINDMY => .PROTOCOL_GOOGLE_FMDN
  | .PROTOCOL_GOOGLE_FMDN => .PROTOCOL_APPLE_FINDMY

/-- The advertising state maintained by the identity switcher: the current
protocol together with the advertisement data currently on air. -/
structure AdvState where
  current_protocol : protocol_t
  adv_data : List (Nat × List Nat)
deriving DecidableEq, Repr

/-- Timer callback `protocol_switcher`: flip the protocol, then rebuild the MAC address
and advertisement data for the new protocol from the (fixed) keys. -/
def protocol_switcher (keys_provisioned : Bool)
    (apple_key google_key : List Nat) (s : AdvState) : AdvState :=
  let p2 := switch_protocol s.current_protocol
  { current_protocol := p2,
    adv_data := start_advertising_data keys_provisioned p2 apple_key
      google_key }

/-- A concrete unauthenticated device state (as after boot with default
keys), used to instantiate the provisioning theorems. -/
def s_unauth : ProvState :=
  { provisioning_allowed := false, provision_key_chunks := 0,
    provision_key_buf := List.replicate APPLE_KEY_SIZE 0,
    runtime_apple_key := List.replicate APPLE_KEY_SIZE 0,
    runtime_google_key := List.replicate GOOGLE_KEY_SIZE 0,
    keys_loaded := true, keys_provisioned := false,
    stored_apple := none, stored_google := none, reboot_delay := none }

/-- A concrete authenticated session (after a successful auth write on
`s_unauth`), used to instantiate the provisioning theorems. -/
def s_auth : ProvState :=
  { s_unauth with provisioning_allowed := true, provision_key_chunks := 0 }

end HybridTag

set_option maxRecDepth 4000 in
/-- Bitwise fact for the Apple address rule: forcing the two high bits of
a byte leaves them set. -/
theorem static_random_bits_set : ∀ k < 256, (k ||| 0xC0) &&& 0xC0 = 0xC0 := by
  decide

set_option maxRecDepth 4000 in
/-- Bitwise fact for the Google address rule: clearing the two high bits
of a byte leaves them cleared. -/
theorem nrpa_bits_cleared : ∀ k < 256, (k &&& 0x3F) &&& 0xC0 = 0 := by
  decide

/-- Claim C1: for every 28-byte Apple key the Apple payload builder
produces exactly 29 bytes with the header `4C 00 12 19`, status byte 0,
bytes 5..26 equal to key bytes 6..27, byte 27 equal to
`(key[0] >> 6) & 0x03` and byte 28 equal to 0; and for every 20-byte
Google key the Google payload builder produces exactly 23 bytes with the
header `2C FE 00` followed by the 20 key bytes. -/
theorem C1_payload_builders (ak gk : List Nat)
    (ha : ak.length = 28) (hg : gk.length = 20) :
    (HybridTag.prepare_apple_findmy_adv ak).length = 29 ∧
    (HybridTag.prepare_apple_findmy_adv ak).take 4 = [0x4C, 0x00, 0x12, 0x19] ∧
    (HybridTag.prepare_apple_findmy_adv ak).getD 4 0 = 0x00 ∧
    ((HybridTag.prepare_apple_findmy_adv ak).drop 5).take 22 =
      (ak.drop 6).take 22 ∧
    (HybridTag.prepare_apple_findmy_adv ak).drop 27 =
      [((ak.getD 0 0) >>> 6) &&& 0x03, 0x00] ∧
    (HybridTag.prepare_google_fmdn_adv gk).length = 23 ∧
    (HybridTag.prepare_google_fmdn_adv gk).take 3 = [0x2C, 0xFE, 0x00] ∧
    (HybridTag.prepare_google_fmdn_adv gk).drop 3 = gk.take 20 := by
  have hblock : ((ak.drop 6).take 22).length = 22 := by
    simp [List.length_take, List.length_drop, ha]
  refine ⟨?_, rfl, rfl, ?_, ?_, ?_, rfl, rfl⟩
  · simp [HybridTag.prepare_apple_findmy_adv, hblock]
  · show (((ak.drop 6).take 22) ++
      [((ak.getD 0 0) >>> 6) &&& 0x03, 0x00]).take 22 = (ak.drop 6).take 22
    exact List.take_left' hblock
  · show (((ak.drop 6).take 22) ++
      [((ak.getD 0 0) >>> 6) &&& 0x03, 0x00]).drop 22 =
      [((ak.getD 0 0) >>> 6) &&& 0x03, 0x00]
    exact List.drop_left' hblock
  · simp [HybridTag.prepare_google_fmdn_adv, HybridTag.GOOGLE_KEY_SIZE, hg]

/-- Claim C1 witness: the payload properties at concrete keys. -/
theorem C1_payload_builders_witness :
    (List.range 28).length = 28 ∧ (List.range 20).length = 20 ∧
    ((HybridTag.prepare_apple_findmy_adv (List.range 28)).length = 29 ∧
     (HybridTag.prepare_apple_findmy_adv (List.range 28)).take 4 =
       [0x4C, 0x00, 0x12, 0x19] ∧
     (HybridTag.prepare_apple_findmy_adv (List.range 28)).getD 4 0 = 0x00 ∧
     ((HybridTag.prepare_apple_findmy_adv (List.range 28)).drop 5).take 22 =
       ((List.range 28).drop 6).take 22 ∧
     (HybridTag.prepare_apple_findmy_adv (List.range 28)).drop 27 =
       [(((List.range 28).getD 0 0) >>> 6) &&& 0x03, 0x00] ∧
     (HybridTag.prepare_google_fmdn_adv (List.range 20)).length = 23 ∧
     (HybridTag.prepare_google_fmdn_adv (List.range 20)).take 3 =
       [0x2C, 0xFE, 0x00] ∧
     (HybridTag.prepare_google_fmdn_adv (List.range 20)).drop 3 =
       (List.range 20).take 20) :=
  ⟨by decide, by decide,
   C1_payload_builders (List.range 28) (List.range 20) (by decide) (by decide)⟩

/-- Claim C2: the derived link-layer address is the first six key bytes
in reversed order, address byte 5 being key byte 0 with the two high bits
forced to 1 for Apple (`addr[5] & 0xC0 = 0xC0`) and cleared for Google
(`addr[5] & 0xC0 = 0`). -/
theorem C2_address_deriver (ak gk : List Nat)
    (ha : ak.getD 0 0 < 256) (hg : gk.getD 0 0 < 256) :
    HybridTag.set_mac_address_apple ak =
      [ak.getD 5 0, ak.getD 4 0, ak.getD 3 0, ak.getD 2 0, ak.getD 1 0,
       (ak.getD 0 0) ||| 0xC0] ∧
    (HybridTag.set_mac_address_apple ak).getD 5 0 &&& 0xC0 = 0xC0 ∧
    HybridTag.set_mac_address_google gk =
      [gk.getD 5 0, gk.getD 4 0, gk.getD 3 0, gk.getD 2 0, gk.getD 1 0,
       (gk.getD 0 0) &&& 0x3F] ∧
    (HybridTag.set_mac_address_google gk).getD 5 0 &&& 0xC0 = 0 := by
  refine ⟨rfl, ?_, rfl, ?_⟩
  · exact static_random_bits_set (ak.getD 0 0) ha
  · exact nrpa_bits_cleared (gk.getD 0 0) hg

/-- Claim C2 witness: the address properties at concrete keys. -/
theorem C2_address_deriver_witness :
    ((List.range 28).getD 0 0 < 256) ∧ ((List.range 20).getD 0 0 < 256) ∧
    (HybridTag.set_mac_address_apple (List.range 28)).getD 5 0 &&& 0xC0 =
      0xC0 ∧
    (HybridTag.set_mac_address_google (List.range 20)).getD 5 0 &&& 0xC0 =
      0 :=
  ⟨by decide, by decide,
   (C2_address_deriver (List.range 28) (List.range 20) (by decide)
     (by decide)).2.1,
   (C2_address_deriver (List.range 28) (List.range 20) (by decide)
     (by decide)).2.2.2⟩

/-- Claim C7: for every starting protocol state whose on-air data matches
its protocol and for fixed key material, applying the protocol-switch
transition twice returns to the original protocol and reproduces
byte-identical advertisement data. -/
theorem C7_protocol_switch_involutive (kp : Bool) (ak gk : List Nat)
    (s : HybridTag.AdvState)
    (hs : s.adv_data =
      HybridTag.start_advertising_data kp s.current_protocol ak gk) :
    HybridTag.protocol_switcher kp ak gk
      (HybridTag.protocol_switcher kp ak gk s) = s := by
  cases s with
  | mk p d =>
    cases p <;>
      simp_all [HybridTag.protocol_switcher, HybridTag.switch_protocol]

/-- Claim C7 witness: double switch at a concrete provisioned Apple
state. -/
theorem C7_protocol_switch_involutive_witness :
    HybridTag.protocol_switcher true (List.range 28) (List.range 20)
      (HybridTag.protocol_switcher true (List.range 28) (List.range 20)
        { current_protocol := .PROTOCOL_APPLE_FINDMY,
          adv_data := HybridTag.start_advertising_data true
            .PROTOCOL_APPLE_FINDMY (List.range 28) (List.range 20) }) =
      { current_protocol := .PROTOCOL_APPLE_FINDMY,
        adv_data := HybridTag.start_advertising_data true
          .PROTOCOL_APPLE_FINDMY (List.range 28) (List.range 20) } :=
  C7_protocol_switch_involutive true (List.range 28) (List.range 20) _ rfl

/-- Claim C5: every key-chunk write with the wrong length, the wrong
chunk index (a third chunk), or arriving while the session is not
authenticated is rejected with an explicit protocol error
(`BT_ATT_ERR_INVALID_ATTRIBUTE_LEN`) and leaves the whole state — in
particular the runtime Apple key and the persisted key — unchanged. -/
theorem C5_rejected_key_write_no_mutation (saveOk : Bool)
    (s : HybridTag.ProvState) (buf : List Nat)
    (h : s.provisioning_allowed = false ∨ buf.length ≠ 14 ∨
      2 ≤ s.provision_key_chunks) :
    HybridTag.write_provision_key saveOk s buf =
      (s, .err HybridTag.BT_ATT_ERR_INVALID_ATTRIBUTE_LEN) := by
  unfold HybridTag.write_provision_key
  rw [if_pos h]

/-- Claim C5 witness: a 14-byte chunk written while unauthenticated is
rejected and mutates nothing. -/
theorem C5_rejected_key_write_no_mutation_witness :
    (HybridTag.s_unauth.provisioning_allowed = false ∨
      (List.replicate 14 0).length ≠ 14 ∨
      2 ≤ HybridTag.s_unauth.provision_key_chunks) ∧
    HybridTag.write_provision_key true HybridTag.s_unauth
      (List.replicate 14 0) =
      (HybridTag.s_unauth, .err HybridTag.BT_ATT_ERR_INVALID_ATTRIBUTE_LEN) :=
  ⟨Or.inl rfl,
   C5_rejected_key_write_no_mutation true HybridTag.s_unauth
     (List.replicate 14 0) (Or.inl rfl)⟩

/-- Claim C6: when the persistent save during the commit (second chunk)
fails, the failure is surfaced to the caller as a rejected write
(`BT_ATT_ERR_UNLIKELY`), the deferred reboot is not scheduled and the
provisioned flag and persisted key are untouched; when the save succeeds
the handler returns the write length, marks the device provisioned and
schedules the reboot. -/
theorem C6_commit_requires_successful_save (s : HybridTag.ProvState)
    (buf : List Nat) (hA : s.provisioning_allowed = true)
    (hl : buf.length = 14) (hc : s.provision_key_chunks = 1) :
    ((HybridTag.write_provision_key false s buf).2 =
       .err HybridTag.BT_ATT_ERR_UNLIKELY ∧
     (HybridTag.write_provision_key false s buf).1.reboot_delay =
       s.reboot_delay ∧
     (HybridTag.write_provision_key false s buf).1.keys_provisioned =
       s.keys_provisioned ∧
     (HybridTag.write_provision_key false s buf).1.stored_apple =
       s.stored_apple) ∧
    ((HybridTag.write_provision_key true s buf).2 = .ok 14 ∧
     (HybridTag.write_provision_key true s buf).1.keys_provisioned = true ∧
     (HybridTag.write_provision_key true s buf).1.reboot_delay = some 1) := by
  simp [HybridTag.write_provision_key, hA, hl, hc,
    HybridTag.schedule_key_update_reboot, HybridTag.reset_provisioning_state]

/-- Claim C6 witness: commit outcomes for both save results at a
concrete one-chunk-received state. -/
theorem C6_commit_requires_successful_save_witness :
    ((HybridTag.write_provision_key false
        { HybridTag.s_auth with provision_key_chunks := 1 }
        (List.replicate 14 2)).2 = .err HybridTag.BT_ATT_ERR_UNLIKELY ∧
     (HybridTag.write_provision_key false
        { HybridTag.s_auth with provision_key_chunks := 1 }
        (List.replicate 14 2)).1.reboot_delay =
       ({ HybridTag.s_auth with
            provision_key_chunks := 1 } : HybridTag.ProvState).reboot_delay ∧
     (HybridTag.write_provision_key false
        { HybridTag.s_auth with provision_key_chunks := 1 }
        (List.replicate 14 2)).1.keys_provisioned =
       ({ HybridTag.s_auth with
            provision_key_chunks := 1 } : HybridTag.ProvState).keys_provisioned ∧
     (HybridTag.write_provision_key false
        { HybridTag.s_auth with provision_key_chunks := 1 }
        (List.replicate 14 2)).1.stored_apple =
       ({ HybridTag.s_auth with
            provision_key_chunks := 1 } : HybridTag.ProvState).stored_apple) ∧
    ((HybridTag.write_provision_key true
        { HybridTag.s_auth with provision_key_chunks := 1 }
        (List.replicate 14 2)).2 = .ok 14 ∧
     (HybridTag.write_provision_key true
        { HybridTag.s_auth with provision_key_chunks := 1 }
        (List.replicate 14 2)).1.keys_provisioned = true ∧
     (HybridTag.write_provision_key true
        { HybridTag.s_auth with provision_key_chunks := 1 }
        (List.replicate 14 2)).1.reboot_delay = some 1) :=
  C6_commit_requires_successful_save
    { HybridTag.s_auth with provision_key_chunks := 1 }
    (List.replicate 14 2) rfl (by decide) rfl

/-- Claim C10: an 8-byte auth write with a mismatched value is answered
with the write length (ATT-level success) while the session is reset to
unauthenticated; only a wrong-length auth write is answered with a GATT
error. -/
theorem C10_auth_mismatch_is_att_success (s : HybridTag.ProvState)
    (buf : List Nat) :
    (buf.length = 8 → buf ≠ HybridTag.provision_auth_code →
      HybridTag.write_provision_auth s buf =
        (HybridTag.reset_provisioning_state s, .ok buf.length)) ∧
    (buf.length ≠ 8 →
      HybridTag.write_provision_auth s buf =
        (s, .err HybridTag.BT_ATT_ERR_INVALID_ATTRIBUTE_LEN)) := by
  constructor
  · intro h8 hne
    unfold HybridTag.write_provision_auth
    rw [if_neg (by simp [h8, HybridTag.provision_auth_code]), if_pos hne]
  · intro h8
    unfold HybridTag.write_provision_auth
    rw [if_pos (show buf.length ≠ HybridTag.provision_auth_code.length
      from h8)]

/-- Claim C10 witness: a mismatched 8-byte token gets ATT success and a
reset session; a 5-byte token gets a GATT error. -/
theorem C10_auth_mismatch_is_att_success_witness :
    HybridTag.write_provision_auth HybridTag.s_auth (List.replicate 8 0) =
      (HybridTag.reset_provisioning_state HybridTag.s_auth,
       .ok (List.replicate 8 0).length) ∧
    HybridTag.write_provision_auth HybridTag.s_auth (List.replicate 5 0) =
      (HybridTag.s_auth, .err HybridTag.BT_ATT_ERR_INVALID_ATTRIBUTE_LEN) :=
  ⟨(C10_auth_mismatch_is_att_success HybridTag.s_auth
      (List.replicate 8 0)).1 rfl (by decide),
   (C10_auth_mismatch_is_att_success HybridTag.s_auth
      (List.replicate 5 0)).2 (by decide)⟩

/-- Every single provisioning write leaves the Google key (runtime and
persisted) unchanged. -/
theorem prov_step_preserves_google (s : HybridTag.ProvState)
    (e : HybridTag.ProvEvent) :
    (HybridTag.prov_step s e).runtime_google_key = s.runtime_google_key ∧
    (HybridTag.prov_step s e).stored_google = s.stored_google := by
  cases e with
  | auth b =>
    simp only [HybridTag.prov_step, HybridTag.write_provision_auth,
      HybridTag.reset_provisioning_state]
    split
    · exact ⟨rfl, rfl⟩
    · split
      · exact ⟨rfl, rfl⟩
      · exact ⟨rfl, rfl⟩
  | key ok b =>
    simp only [HybridTag.prov_step, HybridTag.write_provision_key,
      HybridTag.reset_provisioning_state,
      HybridTag.schedule_key_update_reboot]
    split
    · exact ⟨rfl, rfl⟩
    · split
      · split
        · exact ⟨rfl, rfl⟩
        · exact ⟨rfl, rfl⟩
      · exact ⟨rfl, rfl⟩

/-- Claim C9: for every sequence of writes to the provisioning GATT
channel (auth and key characteristics, with any save outcomes), the
Google key is never mutated: both the runtime Google key and the
persisted Google settings entry are unchanged. -/
theorem C9_provisioning_never_touches_google_key (s : HybridTag.ProvState)
    (es : List HybridTag.ProvEvent) :
    (HybridTag.prov_run s es).runtime_google_key = s.runtime_google_key ∧
    (HybridTag.prov_run s es).stored_google = s.stored_google := by
  induction es generalizing s with
  | nil => exact ⟨rfl, rfl⟩
  | cons e es ih =>
    have h1 := prov_step_preserves_google s e
    have h2 := ih (HybridTag.prov_step s e)
    exact ⟨h2.1.trans h1.1, h2.2.trans h1.2⟩

/-- Assembling two 14-byte chunks at offsets 0 and 14 of a 28-byte buffer
yields exactly their concatenation. -/
theorem memcpyAt_two_chunks (dst c1 c2 : List Nat) (hd : dst.length = 28)
    (h1 : c1.length = 14) (h2 : c2.length = 14) :
    HybridTag.memcpyAt (HybridTag.memcpyAt dst 0 c1) 14 c2 = c1 ++ c2 := by
  have e1 : HybridTag.memcpyAt dst 0 c1 = c1 ++ dst.drop 14 := by
    unfold HybridTag.memcpyAt
    simp [h1]
  have hX : (c1 ++ dst.drop 14).length = 28 := by
    simp [h1, hd]
  rw [e1]
  unfold HybridTag.memcpyAt
  rw [h2, List.take_left' h1, List.drop_eq_nil_of_le (by simp [hX])]
  simp

/-- Claim C3: writing the valid 8-byte auth token followed by two
correctly sized (14-byte) chunks in order commits an Apple key equal to
the byte-for-byte concatenation of the two chunks (both to the runtime
key and to persistent storage), resets the session to unauthenticated,
and schedules the deferred restart with `K_SECONDS(1)` — a delay of one
second, within the claimed 1–2 s. -/
theorem C3_valid_provisioning_commits_concatenation
    (s : HybridTag.ProvState) (c1 c2 : List Nat)
    (hbuf : s.provision_key_buf.length = 28)
    (h1 : c1.length = 14) (h2 : c2.length = 14) :
    (HybridTag.prov_run s
        [.auth HybridTag.provision_auth_code, .key true c1,
         .key true c2]).runtime_apple_key = c1 ++ c2 ∧
    (HybridTag.prov_run s
        [.auth HybridTag.provision_auth_code, .key true c1,
         .key true c2]).stored_apple = some (c1 ++ c2) ∧
    (HybridTag.prov_run s
        [.auth HybridTag.provision_auth_code, .key true c1,
         .key true c2]).provisioning_allowed = false ∧
    (HybridTag.prov_run s
        [.auth HybridTag.provision_auth_code, .key true c1,
         .key true c2]).provision_key_chunks = 0 ∧
    (HybridTag.prov_run s
        [.auth HybridTag.provision_auth_code, .key true c1,
         .key true c2]).reboot_delay = some 1 ∧
    (1:Nat) ≤ 1 ∧ (1:Nat) ≤ 2 := by
  have hcat := memcpyAt_two_chunks s.provision_key_buf c1 c2 hbuf h1 h2
  simp only [HybridTag.prov_run, HybridTag.prov_step]
  simp [HybridTag.write_provision_auth, HybridTag.write_provision_key,
    HybridTag.reset_provisioning_state, HybridTag.schedule_key_update_reboot,
    h1, h2, hcat]

/-- Claim C3 witness: the spec's own scenario — auth "abcdefgh", chunk 1
fourteen zero bytes, chunk 2 the bytes 1..14. -/
theorem C3_valid_provisioning_commits_concatenation_witness :
    HybridTag.s_unauth.provision_key_buf.length = 28 ∧
    (List.replicate 14 0).length = 14 ∧
    ((List.range 14).map (fun i => i + 1)).length = 14 ∧
    (HybridTag.prov_run HybridTag.s_unauth
        [.auth HybridTag.provision_auth_code,
         .key true (List.replicate 14 0),
         .key true ((List.range 14).map (fun i => i + 1))]).runtime_apple_key
      = List.replicate 14 0 ++ (List.range 14).map (fun i => i + 1) :=
  ⟨by decide, by decide, by decide,
   (C3_valid_provisioning_commits_concatenation HybridTag.s_unauth
     (List.replicate 14 0) ((List.range 14).map (fun i => i + 1))
     (by decide) (by decide) (by decide)).1⟩

/-- Claim C4 counterexample: from an authenticated session, an auth write
of wrong length (5 bytes) is rejected with a GATT error yet the session
REMAINS authenticated, and a subsequent 14-byte key-chunk write is then
accepted — refuting both that every malformed/rejected write resets the
session to unauthenticated and that a key-chunk write following a failed
auth write is always rejected. -/
theorem C4_counterexample :
    (HybridTag.write_provision_auth HybridTag.s_auth
       (List.replicate 5 0)).2 =
      .err HybridTag.BT_ATT_ERR_INVALID_ATTRIBUTE_LEN ∧
    (HybridTag.write_provision_auth HybridTag.s_auth
       (List.replicate 5 0)).1.provisioning_allowed = true ∧
    (HybridTag.write_provision_key true
       (HybridTag.write_provision_auth HybridTag.s_auth
         (List.replicate 5 0)).1 (List.replicate 14 1)).2 = .ok 14 := by
  decide

/-- Claim C4 (amended): an 8-byte auth write with a mismatched value
resets the session to unauthenticated; a wrong-length auth write is
rejected with a GATT error but leaves the session state unchanged; and
starting from an UNAUTHENTICATED session, after any failed auth-token
write the session remains unauthenticated and a subsequent key-chunk
write is rejected regardless of its size. -/
theorem C4_amended_failed_auth_fails_closed (s : HybridTag.ProvState)
    (buf buf2 : List Nat) (saveOk : Bool) :
    (buf.length = 8 → buf ≠ HybridTag.provision_auth_code →
      (HybridTag.write_provision_auth s buf).1.provisioning_allowed =
        false) ∧
    (buf.length ≠ 8 → (HybridTag.write_provision_auth s buf).1 = s) ∧
    (s.provisioning_allowed = false →
      buf ≠ HybridTag.provision_auth_code →
      (HybridTag.write_provision_auth s buf).1.provisioning_allowed =
        false ∧
      (HybridTag.write_provision_key saveOk
        (HybridTag.write_provision_auth s buf).1 buf2).2 =
        .err HybridTag.BT_ATT_ERR_INVALID_ATTRIBUTE_LEN) := by
  refine ⟨?_, ?_, ?_⟩
  · intro h8 hne
    unfold HybridTag.write_provision_auth
    rw [if_neg (by simp [h8, HybridTag.provision_auth_code]), if_pos hne]
    rfl
  · intro h8
    unfold HybridTag.write_provision_auth
    rw [if_pos (show buf.length ≠ HybridTag.provision_auth_code.length
      from h8)]
  · intro hun hne
    by_cases h8 : buf.length = 8
    · have hs : (HybridTag.write_provision_auth s buf).1 =
          HybridTag.reset_provisioning_state s := by
        unfold HybridTag.write_provision_auth
        rw [if_neg (by simp [h8, HybridTag.provision_auth_code]),
          if_pos hne]
      have hallow :
          (HybridTag.write_provision_auth s buf).1.provisioning_allowed =
            false := by rw [hs]; rfl
      refine ⟨hallow, ?_⟩
      unfold HybridTag.write_provision_key
      rw [if_pos (Or.inl hallow)]
    · have hs : (HybridTag.write_provision_auth s buf).1 = s := by
        unfold HybridTag.write_provision_auth
        rw [if_pos (show buf.length ≠ HybridTag.provision_auth_code.length
          from h8)]
      have hallow :
          (HybridTag.write_provision_auth s buf).1.provisioning_allowed =
            false := by rw [hs]; exact hun
      refine ⟨hallow, ?_⟩
      unfold HybridTag.write_provision_key
      rw [if_pos (Or.inl hallow)]

/-- Claim C4 (amended) witness: from the unauthenticated boot state, a
mismatched 8-byte token leaves the session unauthenticated and a
following 14-byte chunk write is rejected. -/
theorem C4_amended_failed_auth_fails_closed_witness :
    (HybridTag.write_provision_auth HybridTag.s_unauth
       (List.replicate 8 1)).1.provisioning_allowed = false ∧
    (HybridTag.write_provision_key true
       (HybridTag.write_provision_auth HybridTag.s_unauth
         (List.replicate 8 1)).1 (List.replicate 14 0)).2 =
      .err HybridTag.BT_ATT_ERR_INVALID_ATTRIBUTE_LEN :=
  (C4_amended_failed_auth_fails_closed HybridTag.s_unauth
    (List.replicate 8 1) (List.replicate 14 0) true).2.2 rfl (by decide)

/-- Claim C8 counterexample: booting with no stored keys loads the
compiled defaults and leaves `keys_provisioned = false`, but then
`set_mac_address` returns early WITHOUT installing any key-derived
address (the controller keeps its default address) — refuting the claim
that the advertising address is the protocol-appropriate address derived
from the default keys. -/
theorem C8_counterexample :
    (HybridTag.load_keys (List.range 28) (List.range 20)
       none none).keys_provisioned = false ∧
    (HybridTag.load_keys (List.range 28) (List.range 20)
       none none).runtime_apple_key = List.range 28 ∧
    HybridTag.set_mac_address
      (HybridTag.load_keys (List.range 28) (List.range 20)
        none none).keys_provisioned
      .PROTOCOL_APPLE_FINDMY
      (HybridTag.load_keys (List.range 28) (List.range 20)
        none none).runtime_apple_key
      (HybridTag.load_keys (List.range 28) (List.range 20)
        none none).runtime_google_key = none ∧
    some (HybridTag.set_mac_address_apple (List.range 28)) ≠ none := by
  decide

/-- Claim C8 (amended): booting with no stored keys loads the compiled
defaults for both keys and leaves `keys_provisioned = false`; because the
device is unprovisioned, `set_mac_address` installs no key-derived
address (the controller's default address is used) and the device
advertises the provisioning advertisement (flags + device name) instead
of a protocol frame. -/
theorem C8_amended_unprovisioned_boot_uses_default_address
    (da dg : List Nat) (p : HybridTag.protocol_t) :
    (HybridTag.load_keys da dg none none).runtime_apple_key = da ∧
    (HybridTag.load_keys da dg none none).runtime_google_key = dg ∧
    (HybridTag.load_keys da dg none none).keys_loaded = true ∧
    (HybridTag.load_keys da dg none none).keys_provisioned = false ∧
    HybridTag.set_mac_address
      (HybridTag.load_keys da dg none none).keys_provisioned p
      (HybridTag.load_keys da dg none none).runtime_apple_key
      (HybridTag.load_keys da dg none none).runtime_google_key = none ∧
    HybridTag.start_advertising_data
      (HybridTag.load_keys da dg none none).keys_provisioned p
      (HybridTag.load_keys da dg none none).runtime_apple_key
      (HybridTag.load_keys da dg none none).runtime_google_key =
      [(HybridTag.BT_DATA_FLAGS, [HybridTag.AD_FLAGS_VALUE]),
       (HybridTag.BT_DATA_NAME_COMPLETE, HybridTag.device_name)] := by
  simp [HybridTag.load_keys, HybridTag.set_mac_address,
    HybridTag.start_advertising_data]
